import Mathlib

/-!
Verification of the ai_news-curator repository's curation pipeline.

The Python sources are shallowly embedded:
* `utils2.py` : `fetch_news_from_rss` (feed normalization and pool building)
  and `classify_with_mistral` (binary relevance test against the Ollama HTTP
  endpoint).
* `app_realtime.py` : `fetch_real_ai_news` (feed normalization with HTML
  stripping) and `curate_articles_for_persona` (batch selection: prompt
  construction, block parsing, fallback).

External collaborators (the HTTP client, the feed parser, the LLM process)
are modelled as function parameters.  Python string operations are embedded
as character-list functions (`pySplit`, `pyStrip`, `pyReplace`, ...) whose
semantics match `str.split`, `str.strip`, `str.replace` on the ASCII inputs
involved; fuel arguments equal to the input length make the non-structural
recursions total without changing their meaning.
-/

set_option autoImplicit false

/-! ### Character-list models of the Python string primitives -/

/-- Boolean test that `pat` is a prefix of `s` (character lists). -/
def hasPre : List Char → List Char → Bool
  | [], _ => true
  | _ :: _, [] => false
  | p :: ps, c :: cs => (p == c) && hasPre ps cs

/-- Boolean test that `pat` occurs as a contiguous sublist of `s`;
the semantics of Python's `pat in s` on strings. -/
def containsSub (pat : List Char) : List Char → Bool
  | [] => hasPre pat []
  | c :: cs => hasPre pat (c :: cs) || containsSub pat cs

/-- Python's `pat in s` substring test, on `String`. -/
def strContains (s pat : String) : Bool :=
  containsSub pat.toList s.toList

/-- Specification-side statement that `pat` occurs as a substring of `s`. -/
def SubstrOf (pat s : String) : Prop :=
  ∃ pre post, s.toList = pre ++ (pat.toList ++ post)

/-- Python's `s.startswith(pre)`. -/
def pyStartsWith (s pre : String) : Bool :=
  hasPre pre.toList s.toList

/-- Python's `s.split(sep)` on character lists, for non-empty `sep`:
splits on each leftmost non-overlapping occurrence.  The fuel argument is
instantiated with the length of the input, which bounds the recursion depth
since every step consumes at least one character. -/
def splitFuel (sep : List Char) : Nat → List Char → List (List Char)
  | _, [] => [[]]
  | 0, s => [s]
  | fuel + 1, c :: rest =>
    if hasPre sep (c :: rest) then
      [] :: splitFuel sep fuel ((c :: rest).drop sep.length)
    else
      match splitFuel sep fuel rest with
      | [] => [[c]]
      | h :: t => (c :: h) :: t

/-- Python's `s.split(sep)` for a non-empty separator. -/
def pySplit (s sep : String) : List String :=
  (splitFuel sep.toList s.toList.length s.toList).map String.mk

/-- Python's `s.strip()` (whitespace trim at both ends). -/
def pyStrip (s : String) : String :=
  String.mk (((s.toList.dropWhile Char.isWhitespace).reverse.dropWhile
    Char.isWhitespace).reverse)

/-- Python's `s.lower()` (ASCII case folding, as used on the oracle text). -/
def pyLower (s : String) : String :=
  String.mk (s.toList.map Char.toLower)

/-- Python's `s.replace(pat, rep)` on character lists for non-empty `pat`:
replaces every leftmost non-overlapping occurrence.  Fuel as in
`splitFuel`. -/
def replaceFuel (pat rep : List Char) : Nat → List Char → List Char
  | _, [] => []
  | 0, s => s
  | fuel + 1, c :: rest =>
    if hasPre pat (c :: rest) then
      rep ++ replaceFuel pat rep fuel ((c :: rest).drop pat.length)
    else
      c :: replaceFuel pat rep fuel rest

/-- Python's `s.replace(pat, rep)` for a non-empty pattern. -/
def pyReplace (s pat rep : String) : String :=
  String.mk (replaceFuel pat.toList rep.toList s.toList.length s.toList)

/-- Python's `s[:n]` slice (by code points). -/
def pySlice (n : Nat) (s : String) : String :=
  String.mk (s.toList.take n)

/-- Model of the external HTML text extractor
(`BeautifulSoup(x, "html.parser").get_text()` as used on summaries):
drops every maximal `<`...`>` region.  The boolean records whether the scan
is currently inside a tag. -/
def stripTagsAux : Bool → List Char → List Char
  | _, [] => []
  | true, c :: rest =>
    if c = '>' then stripTagsAux false rest else stripTagsAux true rest
  | false, c :: rest =>
    if c = '<' then stripTagsAux true rest else c :: stripTagsAux false rest

/-- HTML-tag stripping on a character list (tag scan starting outside a
tag). -/
def stripTags (l : List Char) : List Char :=
  stripTagsAux false l

/-! ### Data model -/

/-- A raw feed entry as handed over by the external feed parser: every
field is optional (`entry.get(key, default)` in the source). -/
structure RawEntry where
  title : Option String
  summary : Option String
  link : Option String
  published : Option String
deriving DecidableEq

/-- Normalized article produced by `utils2.fetch_news_from_rss`. -/
structure Article where
  title : String
  summary : String
  link : String
  source : String
  published : String
deriving DecidableEq

/-- Normalized article produced by `app_realtime.fetch_real_ai_news`
(adds the derived `domain` field). -/
structure RTArticle where
  title : String
  link : String
  summary : String
  published : String
  source : String
  domain : String
deriving DecidableEq

/-- An item parsed out of one block of the batch-selection oracle's
response (`curate_articles_for_persona` in `app_realtime.py`). -/
structure CuratedItem where
  title : String
  source : String
  relevance : String
  link : String
deriving DecidableEq

/-- Observable outcome of the HTTP call made by `classify_with_mistral`:
either a status code together with the optional "response" field of the
decoded JSON body, or an exception (transport error, timeout, JSON decode
failure). -/
inductive HttpResult where
  | success (status : Nat) (response : Option String)
  | failure
deriving DecidableEq

/-! ### utils2.py -/

/-- The `RSS_FEEDS` source configuration of `utils2.py`. -/
def RSS_FEEDS : List (String × String) :=
  [("HuggingFace Blog", "https://huggingface.co/blog/feed.xml"),
   ("OpenAI Blog", "https://openai.com/blog/feed.xml"),
   ("DeepMind Blog", "https://www.deepmind.com/blog/feed.xml"),
   ("AI Weekly", "https://aiweekly.co/issues.rss"),
   ("Phys.org AI", "https://phys.org/rss-feed/technology-news/machine-learning-ai/"),
   ("Google Developers", "https://feeds.feedburner.com/GDBcode")]

/-- The per-entry dictionary built inside `utils2.fetch_news_from_rss`:
defaults `"No title"`, `"No summary"` (then a 300-character slice), `"#"`,
`"Unknown"`; `source` is the configured source name.  No HTML stripping
happens here. -/
def normalizeEntry (source_name : String) (entry : RawEntry) : Article :=
  { title := entry.title.getD "No title"
    summary := pySlice 300 (entry.summary.getD "No summary")
    link := entry.link.getD "#"
    source := source_name
    published := entry.published.getD "Unknown" }

/-- The pool-building loop of `utils2.fetch_news_from_rss`, parameterized
by the external fetch capability (`feedparser.parse`) and the source
configuration.  A raised fetch error skips the source (the `except`
branch only prints); at most the first 5 entries of each feed are taken. -/
def fetch_news_from_rss (fetch : String → Except String (List RawEntry))
    (sources : List (String × String)) : List Article :=
  sources.foldl
    (fun all_articles src =>
      match fetch src.2 with
      | .ok entries => all_articles ++ ((entries.take 5).map (normalizeEntry src.1))
      | .error _ => all_articles)
    []

/-- The contribution of a single configured source to the pool: empty when
its fetch fails, otherwise its first 5 entries normalized. -/
def sourceArticles (fetch : String → Except String (List RawEntry))
    (src : String × String) : List Article :=
  match fetch src.2 with
  | .ok entries => (entries.take 5).map (normalizeEntry src.1)
  | .error _ => []

/-- The classification prompt built by `utils2.classify_with_mistral`. -/
def classifyPrompt (article_title article_summary persona : String) : String :=
  "Classify if this article is relevant to a " ++ persona ++ ".\n\nArticle Title: "
    ++ article_title ++ "\nArticle Summary: " ++ article_summary
    ++ "\n\nIs this article relevant to " ++ persona
    ++ "? Answer with ONLY \"yes\" or \"no\":"

/-- `utils2.classify_with_mistral`, with the HTTP POST to the Ollama
endpoint modelled by the `oracle` parameter.  On status 200 the decision is
the permissive substring test on the lowercased, stripped "response" field
(absent field defaulting to the empty string); any non-200 status or raised
exception yields `false`. -/
def classify_with_mistral (oracle : String → HttpResult)
    (article_title article_summary persona : String) : Bool :=
  match oracle (classifyPrompt article_title article_summary persona) with
  | .success status response =>
    if status = 200 then
      let response_text := pyStrip (pyLower (response.getD ""))
      strContains response_text "yes" || strContains response_text "relevant"
    else false
  | .failure => false

/-! ### app_realtime.py -/

/-- The `AI_NEWS_SOURCES` configuration of `app_realtime.py`. -/
def AI_NEWS_SOURCES : List (String × String) :=
  [("arXiv AI", "https://arxiv.org/rss/cs.AI"),
   ("arXiv ML", "https://arxiv.org/rss/cs.LG"),
   ("Google AI Blog", "https://ai.googleblog.com/feeds/posts/default"),
   ("OpenAI Blog", "https://openai.com/blog/feed.rss"),
   ("DeepMind Blog", "https://www.deepmind.com/blog/feed/rss.xml"),
   ("Hugging Face Blog", "https://huggingface.co/blog/feed.xml"),
   ("TechCrunch AI", "https://techcrunch.com/category/artificial-intelligence/feed/")]

/-- The fixed persona list of `app_realtime.py`. -/
def PERSONAS : List String :=
  ["Developers and Programmers",
   "Investors and Venture Capitalists",
   "Students and Researchers",
   "Founders and Business Leaders",
   "Healthcare Professionals",
   "Designers and Creative Professionals",
   "Journalists and Media Professionals",
   "Marketing and Advertising Professionals"]

/-- The per-entry dictionary built inside `app_realtime.fetch_real_ai_news`:
a missing link defaults to the empty string, the summary is sliced to 300
characters first and HTML-stripped afterwards, and `domain` is derived from
the source name. -/
def normalizeEntryRT (source_name : String) (entry : RawEntry) : RTArticle :=
  { title := entry.title.getD "No title"
    link := entry.link.getD ""
    summary := String.mk (stripTags ((entry.summary.getD "").toList.take 300))
    published := entry.published.getD "Recently"
    source := source_name
    domain := if strContains (pyLower source_name) "arxiv" then "AI Research" else "AI News" }

/-- The pool-building loop of `app_realtime.fetch_real_ai_news` (same shape
as `fetch_news_from_rss` with the `app_realtime` normalizer). -/
def fetch_real_ai_news (fetch : String → Except String (List RawEntry))
    (sources : List (String × String)) : List RTArticle :=
  sources.foldl
    (fun all_articles src =>
      match fetch src.2 with
      | .ok entries => all_articles ++ ((entries.take 5).map (normalizeEntryRT src.1))
      | .error _ => all_articles)
    []

/-- One article's lines inside the `articles_text` part of the curation
prompt. -/
def articleBlock (a : RTArticle) : String :=
  "Title: " ++ a.title ++ "\nSource: " ++ a.source ++ "\nSummary: " ++ a.summary
    ++ "\nLink: " ++ a.link

/-- The batch-curation prompt built by
`app_realtime.curate_articles_for_persona` from the first 15 pool
articles. -/
def buildCurationPrompt (articles : List RTArticle) (persona : String)
    (num_updates : Nat) : String :=
  let articles_text := String.intercalate "\n\n" ((articles.take 15).map articleBlock)
  "You are an AI news curator. Filter these " ++ Nat.repr articles.length
    ++ " real AI news articles \nand select the TOP " ++ Nat.repr num_updates
    ++ " most relevant for: " ++ persona ++ "\n\nArticles:\n" ++ articles_text
    ++ "\n\nFor each selected article, output EXACTLY this format:\n\nTITLE: [headline]\nSOURCE: [source name]\nRELEVANCE: [brief explanation of why this is relevant to "
    ++ persona ++ "]\nLINK: [exact URL from the article]\n---\n\nSelect "
    ++ Nat.repr num_updates ++ " articles that matter most to " ++ persona
    ++ ". Be selective and relevant."

/-- The per-block line scan of `curate_articles_for_persona`: split the
stripped block into lines, and for each line matching one of the four
labels, store the label-stripped trimmed remainder (later lines with the
same label overwrite earlier ones). -/
def parseBlock (sec : String) : CuratedItem :=
  let lines := pySplit (pyStrip sec) "\n"
  lines.foldl
    (fun item line =>
      if pyStartsWith line "TITLE:" then
        { item with title := pyStrip (pyReplace line "TITLE:" "") }
      else if pyStartsWith line "SOURCE:" then
        { item with source := pyStrip (pyReplace line "SOURCE:" "") }
      else if pyStartsWith line "RELEVANCE:" then
        { item with relevance := pyStrip (pyReplace line "RELEVANCE:" "") }
      else if pyStartsWith line "LINK:" then
        { item with link := pyStrip (pyReplace line "LINK:" "") }
      else item)
    { title := "", source := "", relevance := "", link := "" }

/-- The response-parsing loop of `curate_articles_for_persona`: split on
`"---"`, skip blank sections, and append a parsed block exactly when both
its title and its link are non-empty. -/
def parseResponse (response : String) : List CuratedItem :=
  (pySplit response "---").foldl
    (fun curated sec =>
      if pyStrip sec = "" then curated
      else
        let item := parseBlock sec
        if item.title != "" && item.link != "" then curated ++ [item]
        else curated)
    []

/-- The tail of `curate_articles_for_persona` after the oracle call: empty
response falls back to the raw first `num_updates` articles, as does a
response with zero accepted blocks; otherwise the accepted blocks are
returned capped at `num_updates`, in response order. -/
def processResponse (articles : List RTArticle) (num_updates : Nat)
    (response : String) : List (RTArticle ⊕ CuratedItem) :=
  if response = "" then (articles.take num_updates).map Sum.inl
  else
    let curated := parseResponse response
    if curated.isEmpty then (articles.take num_updates).map Sum.inl
    else (curated.take num_updates).map Sum.inr

/-- `app_realtime.curate_articles_for_persona`, with the LLM subprocess
(`run_llm_model`) modelled by the `oracle` parameter; the failure modes of
`run_llm_model` all surface as the empty-string response.  The returned
list carries raw pool articles on the fallback path and parsed oracle
items on the success path. -/
def curate_articles_for_persona (oracle : String → String)
    (articles : List RTArticle) (persona : String) (num_updates : Nat) :
    List (RTArticle ⊕ CuratedItem) :=
  if articles.isEmpty then []
  else processResponse articles num_updates
    (oracle (buildCurationPrompt articles persona num_updates))

/-- `curate_articles_for_persona` instrumented with the observable I/O of
one invocation: the list of prompts sent to the oracle, and the oracle's
state (threaded through its calls, modelling the external process). -/
def curateCore {σ : Type} (oracle : σ → String → String × σ) (st : σ)
    (articles : List RTArticle) (persona : String) (num_updates : Nat) :
    List (RTArticle ⊕ CuratedItem) × List String × σ :=
  if articles.isEmpty then ([], [], st)
  else
    let prompt := buildCurationPrompt articles persona num_updates
    let r := oracle st prompt
    (processResponse articles num_updates r.1, [prompt], r.2)

/-! ### Concrete inputs used by witnesses and counterexamples -/

/-- A sample normalized pool article. -/
def demoArticle : RTArticle :=
  { title := "Model X released"
    link := "https://a.example/x"
    summary := "An AI model."
    published := "2025-01-01"
    source := "OpenAI Blog"
    domain := "AI News" }

/-- A sample oracle response with two well-formed blocks and one block
missing its `LINK:` line. -/
def demoResponse : String :=
  "TITLE: Alpha\nSOURCE: OpenAI Blog\nRELEVANCE: Useful for devs\nLINK: https://a.example/alpha\n---\nTITLE: Beta\nSOURCE: DeepMind Blog\nRELEVANCE: Research update\nLINK: https://b.example/beta\n---\nTITLE: Gamma\nSOURCE: AI Weekly\nRELEVANCE: Missing link line\n"

/-- A sample raw entry whose summary carries HTML markup. -/
def demoRaw : RawEntry :=
  { title := some "Hello"
    summary := some "<b>Hi</b> world"
    link := some "https://a.example/hello"
    published := some "2025-01-02" }

/-- Six sample raw feed entries (one more than the per-source cap). -/
def demoEntries : List RawEntry :=
  [{ title := some "E1", summary := some "s1", link := some "l1", published := none },
   { title := some "E2", summary := some "s2", link := some "l2", published := none },
   { title := some "E3", summary := some "s3", link := some "l3", published := none },
   { title := some "E4", summary := some "s4", link := some "l4", published := none },
   { title := some "E5", summary := some "s5", link := some "l5", published := none },
   { title := some "E6", summary := some "s6", link := some "l6", published := none }]

/-- A stub fetch capability: one good URL, every other URL raises. -/
def demoFetch (url : String) : Except String (List RawEntry) :=
  if url = "https://good.example/feed" then Except.ok demoEntries
  else Except.error "network"

/-- A two-source configuration whose first source fails under
`demoFetch`. -/
def demoSources : List (String × String) :=
  [("Bad", "https://bad.example/feed"), ("Good", "https://good.example/feed")]

/-- A sample raw entry whose link field is absent. -/
def demoRawNoLink : RawEntry :=
  { title := some "Model X released"
    summary := some "An AI model."
    link := none
    published := some "2025-01-01" }

/-- A sample raw entry with every optional field absent. -/
def demoRawEmpty : RawEntry :=
  { title := none, summary := none, link := none, published := none }

/-! ### Properties of the string primitives -/

theorem hasPre_iff (pat : List Char) :
    ∀ s : List Char, hasPre pat s = true ↔ ∃ t, s = pat ++ t := by
  induction pat with
  | nil => intro s; simp [hasPre]
  | cons p ps ih =>
    intro s
    cases s with
    | nil => simp [hasPre]
    | cons c cs =>
      simp only [hasPre, Bool.and_eq_true, beq_iff_eq, ih cs, List.cons_append,
        List.cons.injEq]
      constructor
      · rintro ⟨rfl, t, rfl⟩; exact ⟨t, rfl, rfl⟩
      · rintro ⟨t, rfl, rfl⟩; exact ⟨rfl, t, rfl⟩

theorem containsSub_iff (pat : List Char) :
    ∀ s : List Char, containsSub pat s = true ↔ ∃ pre post, s = pre ++ (pat ++ post) := by
  intro s
  induction s with
  | nil =>
    simp only [containsSub, hasPre_iff]
    constructor
    · rintro ⟨t, ht⟩; exact ⟨[], t, ht⟩
    · rintro ⟨pre, post, h⟩
      rcases List.append_eq_nil.mp h.symm with ⟨hpre, hrest⟩
      exact ⟨post, hrest.symm⟩
  | cons c cs ih =>
    simp only [containsSub, Bool.or_eq_true, hasPre_iff, ih]
    constructor
    · rintro (⟨t, ht⟩ | ⟨pre, post, h⟩)
      · exact ⟨[], t, ht⟩
      · exact ⟨c :: pre, post, by simp [h]⟩
    · rintro ⟨pre, post, h⟩
      cases pre with
      | nil => exact Or.inl ⟨post, by simpa using h⟩
      | cons a pre' =>
        simp only [List.cons_append, List.cons.injEq] at h
        exact Or.inr ⟨pre', post, h.2⟩

theorem strContains_iff (s pat : String) :
    strContains s pat = true ↔ SubstrOf pat s :=
  containsSub_iff pat.toList s.toList

theorem stripTagsAux_length_le :
    ∀ (l : List Char) (b : Bool), (stripTagsAux b l).length ≤ l.length := by
  intro l
  induction l with
  | nil => intro b; cases b <;> simp [stripTagsAux]
  | cons c rest ih =>
    intro b
    cases b with
    | false =>
      by_cases h : c = '<'
      · simpa [stripTagsAux, h] using Nat.le_succ_of_le (ih true)
      · simpa [stripTagsAux, h] using Nat.succ_le_succ (ih false)
    | true =>
      by_cases h : c = '>'
      · simpa [stripTagsAux, h] using Nat.le_succ_of_le (ih false)
      · simpa [stripTagsAux, h] using Nat.le_succ_of_le (ih true)

theorem stripTagsAux_ne_lt :
    ∀ (l : List Char) (b : Bool) (c : Char), c ∈ stripTagsAux b l → c ≠ '<' := by
  intro l
  induction l with
  | nil => intro b c hc; simp [stripTagsAux] at hc
  | cons a rest ih =>
    intro b c hc
    cases b with
    | false =>
      by_cases h : a = '<'
      · exact ih true c (by simpa [stripTagsAux, h] using hc)
      · rw [stripTagsAux, if_neg h] at hc
        rcases List.mem_cons.mp hc with rfl | hmem
        · exact h
        · exact ih false c hmem
    | true =>
      by_cases h : a = '>'
      · exact ih false c (by simpa [stripTagsAux, h] using hc)
      · exact ih true c (by simpa [stripTagsAux, h] using hc)

/-! ### Properties of the response parser and the curation tail -/

theorem parseBlock_blank (sec : String) (h : pyStrip sec = "") :
    parseBlock sec = { title := "", source := "", relevance := "", link := "" } := by
  unfold parseBlock
  rw [h]
  rfl

theorem parseFoldl_eq (secs : List String) (acc : List CuratedItem) :
    secs.foldl
      (fun curated sec =>
        if pyStrip sec = "" then curated
        else
          let item := parseBlock sec
          if item.title != "" && item.link != "" then curated ++ [item]
          else curated)
      acc
    = acc ++ (secs.map parseBlock).filter (fun it => it.title != "" && it.link != "") := by
  induction secs generalizing acc with
  | nil => simp
  | cons sec rest ih =>
    simp only [List.foldl_cons, List.map_cons, List.filter_cons]
    by_cases hb : pyStrip sec = ""
    · rw [if_pos hb, ih, parseBlock_blank sec hb]
      simp
    · rw [if_neg hb]
      by_cases hc : ((parseBlock sec).title != "" && (parseBlock sec).link != "") = true
      · simp only [hc, if_true, if_pos hc, ih, List.append_assoc, List.singleton_append]
      · simp only [hc, if_false, if_neg hc, ih, Bool.false_eq_true]

theorem processResponse_length_le (articles : List RTArticle) (k : Nat)
    (response : String) : (processResponse articles k response).length ≤ k := by
  unfold processResponse
  split
  · simp only [List.length_map, List.length_take]; omega
  · dsimp only
    split
    · simp only [List.length_map, List.length_take]; omega
    · simp only [List.length_map, List.length_take]; omega

theorem poolFoldl_eq (fetch : String → Except String (List RawEntry))
    (sources : List (String × String)) :
    ∀ acc : List Article,
      sources.foldl
        (fun all_articles src =>
          match fetch src.2 with
          | .ok entries => all_articles ++ ((entries.take 5).map (normalizeEntry src.1))
          | .error _ => all_articles)
        acc
      = acc ++ (sources.map (sourceArticles fetch)).flatten := by
  induction sources with
  | nil => intro acc; simp
  | cons src rest ih =>
    intro acc
    simp only [List.foldl_cons, List.map_cons, List.flatten_cons]
    cases hf : fetch src.2 with
    | ok entries => rw [ih]; simp [sourceArticles, hf, List.append_assoc]
    | error e => rw [ih]; simp [sourceArticles, hf]

/-! ### Claim theorems -/

/-- C1: for every call to `curate_articles_for_persona`, if the oracle call
fails entirely (the model runner surfaces every transport error, timeout or
empty output as the empty-string response) or the response yields zero
parseable blocks, the result is exactly the first `num_updates` articles of
the input pool, unmodified and in pool order; and in every case the result
has length at most `num_updates`. -/
theorem curate_fallback_bound (oracle : String → String) (articles : List RTArticle)
    (persona : String) (k : Nat) :
    ((oracle (buildCurationPrompt articles persona k) = "" ∨
        parseResponse (oracle (buildCurationPrompt articles persona k)) = []) →
      curate_articles_for_persona oracle articles persona k =
        (articles.take k).map Sum.inl) ∧
    (curate_articles_for_persona oracle articles persona k).length ≤ k := by
  unfold curate_articles_for_persona
  by_cases he : articles.isEmpty
  · obtain rfl : articles = [] := List.isEmpty_iff.mp he
    simp
  · rw [if_neg he]
    refine ⟨?_, processResponse_length_le _ _ _⟩
    intro h
    unfold processResponse
    rcases h with h | h
    · rw [if_pos h]
    · by_cases hr : oracle (buildCurationPrompt articles persona k) = ""
      · rw [if_pos hr]
      · rw [if_neg hr]
        dsimp only
        rw [h]
        simp

/-- Witness for C1: a concrete oracle that always fails, on a one-article
pool with `k = 2`. -/
theorem curate_fallback_bound_w :
    curate_articles_for_persona (fun _ => "") [demoArticle]
        "Developers and Programmers" 2 = ([demoArticle].take 2).map Sum.inl ∧
    (curate_articles_for_persona (fun _ => "") [demoArticle]
        "Developers and Programmers" 2).length ≤ 2 :=
  ⟨(curate_fallback_bound (fun _ => "") [demoArticle] "Developers and Programmers" 2).1
      (Or.inl rfl),
   (curate_fallback_bound (fun _ => "") [demoArticle] "Developers and Programmers" 2).2⟩

/-- C2: `classify_with_mistral` returns `true` exactly when the HTTP call
comes back with status 200 and the lowercased, stripped "response" field
contains the substring "yes" or the substring "relevant"; in every other
case, including a raised exception (transport error, timeout, JSON decode
failure) and any non-200 status, it returns `false`. -/
theorem classify_decision_iff (oracle : String → HttpResult) (t s p : String) :
    classify_with_mistral oracle t s p = true ↔
      ∃ field : Option String,
        oracle (classifyPrompt t s p) = HttpResult.success 200 field ∧
          (SubstrOf "yes" (pyStrip (pyLower (field.getD ""))) ∨
            SubstrOf "relevant" (pyStrip (pyLower (field.getD "")))) := by
  unfold classify_with_mistral
  cases hres : oracle (classifyPrompt t s p) with
  | success status field =>
    dsimp only
    by_cases h200 : status = 200
    · subst h200
      rw [if_pos rfl]
      constructor
      · intro h
        rcases Bool.or_eq_true_iff.mp h with h | h
        · exact ⟨field, rfl, Or.inl ((strContains_iff _ _).mp h)⟩
        · exact ⟨field, rfl, Or.inr ((strContains_iff _ _).mp h)⟩
      · rintro ⟨f, hf, h⟩
        obtain rfl : field = f := by injection hf
        rcases h with h | h
        · exact Bool.or_eq_true_iff.mpr (Or.inl ((strContains_iff _ _).mpr h))
        · exact Bool.or_eq_true_iff.mpr (Or.inr ((strContains_iff _ _).mpr h))
    · rw [if_neg h200]
      simp only [Bool.false_eq_true, false_iff]
      rintro ⟨f, hf, _⟩
      injection hf with h1 h2
      exact h200 h1
  | failure =>
    simp only [Bool.false_eq_true, false_iff]
    rintro ⟨f, hf, _⟩
    exact HttpResult.noConfusion hf

/-- C3 counterexample: the `fetch_real_ai_news` normalization of
`app_realtime.py` defaults a missing `link` to the empty string
(`entry.get("link", "")`), so for an entry without a link the normalized
article does not have non-empty title, link and source. -/
theorem normalizeRT_missing_link :
    ¬ ((normalizeEntryRT "OpenAI Blog" demoRawNoLink).title ≠ "" ∧
       (normalizeEntryRT "OpenAI Blog" demoRawNoLink).link ≠ "" ∧
       (normalizeEntryRT "OpenAI Blog" demoRawNoLink).source ≠ "") := by
  decide

/-- C3 amended: in the `utils2.fetch_news_from_rss` normalization, whenever
a present title or link field is non-empty and the configured source name
is non-empty, the normalized article's title, link and source are all
non-empty (a missing field is replaced by the non-empty defaults
"No title" and "#", and source is the configured name); the
`app_realtime.py` normalizer instead defaults a missing link to the empty
string. -/
theorem normalize_identity_nonempty (source_name : String) (entry : RawEntry)
    (ht : entry.title ≠ some "") (hl : entry.link ≠ some "") (hs : source_name ≠ "") :
    (normalizeEntry source_name entry).title ≠ "" ∧
    (normalizeEntry source_name entry).link ≠ "" ∧
    (normalizeEntry source_name entry).source ≠ "" := by
  refine ⟨?_, ?_, hs⟩
  · show entry.title.getD "No title" ≠ ""
    cases h : entry.title with
    | none => decide
    | some t =>
      simp only [Option.getD_some]
      exact fun hteq => ht (by rw [h, hteq])
  · show entry.link.getD "#" ≠ ""
    cases h : entry.link with
    | none => decide
    | some l =>
      simp only [Option.getD_some]
      exact fun hleq => hl (by rw [h, hleq])

/-- Witness for C3 (amended) at a fully-absent entry and a configured
source name. -/
theorem normalize_identity_nonempty_w :
    (normalizeEntry "AI Weekly" demoRawEmpty).title ≠ "" ∧
    (normalizeEntry "AI Weekly" demoRawEmpty).link ≠ "" ∧
    (normalizeEntry "AI Weekly" demoRawEmpty).source ≠ "" :=
  normalize_identity_nonempty "AI Weekly" demoRawEmpty (by decide) (by decide)
    (by decide)

/-- C4 counterexample: the `utils2.fetch_news_from_rss` normalization does
not strip HTML at all — a summary carrying markup is kept verbatim (only
sliced to 300 characters), so the normalized summary still contains the
HTML tag. -/
theorem normalize_summary_keeps_html :
    (normalizeEntry "HuggingFace Blog" demoRaw).summary = "<b>Hi</b> world" ∧
    strContains (normalizeEntry "HuggingFace Blog" demoRaw).summary "<b>" = true := by
  decide

/-- C4 amended: in both normalizers the summary of a normalized article is
at most 300 characters; in `app_realtime.fetch_real_ai_news` the summary is
additionally HTML-stripped so it contains no tag opener — but the stripping
is applied after the 300-character truncation, not before, and
`utils2.fetch_news_from_rss` does not strip HTML at all. -/
theorem normalize_summary_bounds (source_name : String) (entry : RawEntry) :
    (normalizeEntry source_name entry).summary.toList.length ≤ 300 ∧
    (normalizeEntryRT source_name entry).summary.toList.length ≤ 300 ∧
    ∀ c ∈ (normalizeEntryRT source_name entry).summary.toList, c ≠ '<' := by
  refine ⟨?_, ?_, ?_⟩
  · exact List.length_take_le 300 (entry.summary.getD "No summary").toList
  · exact le_trans (stripTagsAux_length_le ((entry.summary.getD "").toList.take 300) false)
      (List.length_take_le 300 (entry.summary.getD "").toList)
  · intro c hc
    exact stripTagsAux_ne_lt ((entry.summary.getD "").toList.take 300) false c hc

/-- Witness for C4 (amended) at a concrete entry with HTML in its
summary. -/
theorem normalize_summary_bounds_w :
    (normalizeEntry "AI Weekly" demoRaw).summary.toList.length ≤ 300 ∧
    '<' ∉ (normalizeEntryRT "AI Weekly" demoRaw).summary.toList :=
  ⟨(normalize_summary_bounds "AI Weekly" demoRaw).1,
   fun h => (normalize_summary_bounds "AI Weekly" demoRaw).2.2 '<' h rfl⟩

/-- C5: the batch-selection parser splits the oracle's response on the
separator `"---"` and accepts a block exactly when both the extracted
TITLE and LINK are non-empty, discarding other blocks silently; in
particular a response with two well-formed blocks and one block missing
its LINK line, with `k = 3`, yields exactly those two entries in the
oracle's order. -/
theorem parse_accept_characterization :
    (∀ response : String,
        parseResponse response =
          ((pySplit response "---").map parseBlock).filter
            (fun it => it.title != "" && it.link != "")) ∧
    curate_articles_for_persona (fun _ => demoResponse) [demoArticle]
        "Students and Researchers" 3 =
      [Sum.inr { title := "Alpha", source := "OpenAI Blog",
                 relevance := "Useful for devs", link := "https://a.example/alpha" },
       Sum.inr { title := "Beta", source := "DeepMind Blog",
                 relevance := "Research update", link := "https://b.example/beta" }] := by
  constructor
  · intro response
    unfold parseResponse
    simpa using parseFoldl_eq (pySplit response "---") []
  · set_option maxRecDepth 100000 in decide

/-- C6: the pool builder is the concatenation, in source-configuration
order, of independent per-source contributions: each contribution takes at
most 5 entries of its own feed, and a failing source contributes the empty
list — so no source's failure reduces or corrupts another source's
contribution. -/
theorem build_pool_concat (fetch : String → Except String (List RawEntry))
    (sources : List (String × String)) :
    fetch_news_from_rss fetch sources =
      (sources.map (sourceArticles fetch)).flatten ∧
    (∀ src ∈ sources, (sourceArticles fetch src).length ≤ 5) ∧
    (∀ src ∈ sources, ∀ msg, fetch src.2 = Except.error msg →
      sourceArticles fetch src = []) := by
  refine ⟨?_, ?_, ?_⟩
  · unfold fetch_news_from_rss
    simpa using poolFoldl_eq fetch sources []
  · intro src hmem
    unfold sourceArticles
    cases hf : fetch src.2 with
    | ok entries => simp only [List.length_map, List.length_take]; omega
    | error e => simp
  · intro src hmem msg hmsg
    unfold sourceArticles
    rw [hmsg]

/-- Witness for C6: a two-source configuration where the first source
fails and the second succeeds with six entries. -/
theorem build_pool_concat_w :
    (sourceArticles demoFetch ("Good", "https://good.example/feed")).length ≤ 5 ∧
    sourceArticles demoFetch ("Bad", "https://bad.example/feed") = [] ∧
    fetch_news_from_rss demoFetch demoSources =
      (demoSources.map (sourceArticles demoFetch)).flatten :=
  ⟨(build_pool_concat demoFetch demoSources).2.1 _ (by decide),
   (build_pool_concat demoFetch demoSources).2.2 _ (by decide) "network" rfl,
   (build_pool_concat demoFetch demoSources).1⟩

/-- C7: `classify_with_mistral` is total in the embedding (every failure of
the HTTP call is caught), and when the oracle errors on every call it
returns `false` for every input instead of propagating the failure. -/
theorem classify_oracle_failure_false (oracle : String → HttpResult)
    (h : ∀ p, oracle p = HttpResult.failure)
    (article_title article_summary persona : String) :
    classify_with_mistral oracle article_title article_summary persona = false := by
  unfold classify_with_mistral
  rw [h]

/-- Witness for C7: an oracle stub that always errors, at concrete
inputs. -/
theorem classify_oracle_failure_false_w :
    classify_with_mistral (fun _ => HttpResult.failure) "Model X released"
      "An AI model." "Developers and Programmers" = false :=
  classify_oracle_failure_false (fun _ => HttpResult.failure) (fun _ => rfl)
    "Model X released" "An AI model." "Developers and Programmers"

/-- C8 counterexample: `curate_articles_for_persona` performs no argument
validation — called with a persona outside the fixed `PERSONAS` list and a
requested count of 0 (an invalid, non-positive bound) on a non-empty pool,
it still issues an oracle call (the call log is non-empty), so invalid
arguments are not rejected before I/O is attempted. -/
theorem curate_invalid_args_calls_oracle :
    "Gardeners" ∉ PERSONAS ∧
    (curateCore (fun (u : Unit) p => (p, u)) () [demoArticle] "Gardeners" 0).2.1 ≠ [] := by
  exact ⟨by decide, by simp [curateCore]⟩

/-- C8 amended: the Curation Engine does not validate its arguments; for
every persona string and every requested count (including 0) it issues
exactly one oracle call as soon as the pool is non-empty, and only the
result's length is capped at the requested count.  Argument validity is
enforced upstream by the presentation layer (a slider bounded to 3..8 and a
selectbox over the fixed persona list), not by the Engine. -/
theorem curate_no_arg_validation {σ : Type} (oracle : σ → String → String × σ)
    (st : σ) (articles : List RTArticle) (persona : String) (k : Nat)
    (h : articles ≠ []) :
    (curateCore oracle st articles persona k).2.1 =
      [buildCurationPrompt articles persona k] ∧
    (curateCore oracle st articles persona k).1.length ≤ k := by
  have he : ¬(articles.isEmpty = true) := by
    cases articles with
    | nil => exact absurd rfl h
    | cons a rest => simp
  unfold curateCore
  rw [if_neg he]
  exact ⟨rfl, processResponse_length_le _ _ _⟩

/-- Witness for C8 (amended) at a concrete invalid request. -/
theorem curate_no_arg_validation_w :
    (curateCore (fun (u : Unit) p => (p, u)) () [demoArticle] "Gardeners" 0).2.1 =
      [buildCurationPrompt [demoArticle] "Gardeners" 0] ∧
    (curateCore (fun (u : Unit) p => (p, u)) () [demoArticle] "Gardeners" 0).1.length ≤ 0 :=
  curate_no_arg_validation (fun (u : Unit) p => (p, u)) () [demoArticle] "Gardeners" 0
    (by decide)

/-- C9: with an empty article pool, curation returns the empty result
immediately: no oracle call is made (the call log is empty) and the
oracle's state is untouched — a valid, non-erroneous outcome. -/
theorem curate_empty_pool_noop {σ : Type} (oracle : σ → String → String × σ)
    (st : σ) (persona : String) (k : Nat) :
    curateCore oracle st ([] : List RTArticle) persona k = ([], [], st) := rfl

/-- C10: curation is deterministic: when the oracle's response depends only
on the prompt (the same response for the same prompt, whatever internal
state it carries), two successive runs of `curate_articles_for_persona` on
the identical pool, persona and count — the second starting from the
oracle state the first left behind — produce identical ordered results. -/
theorem curate_deterministic_runs {σ : Type} (oracle : σ → String → String × σ)
    (f : String → String) (h : ∀ st p, (oracle st p).1 = f p)
    (articles : List RTArticle) (persona : String) (k : Nat) (st : σ) :
    (curateCore oracle ((curateCore oracle st articles persona k).2.2)
        articles persona k).1 =
      (curateCore oracle st articles persona k).1 := by
  unfold curateCore
  by_cases he : articles.isEmpty
  · simp [he]
  · rw [if_neg he, if_neg he]
    dsimp only
    rw [h, h]

/-- Witness for C10: a stateful but prompt-deterministic oracle (it counts
its calls but always echoes the prompt). -/
theorem curate_deterministic_runs_w :
    (curateCore (fun (st : Nat) p => (p, st + 1))
        ((curateCore (fun (st : Nat) p => (p, st + 1)) 0 [demoArticle]
          "Developers and Programmers" 5).2.2) [demoArticle]
        "Developers and Programmers" 5).1 =
      (curateCore (fun (st : Nat) p => (p, st + 1)) 0 [demoArticle]
        "Developers and Programmers" 5).1 :=
  curate_deterministic_runs (fun (st : Nat) p => (p, st + 1)) (fun p => p)
    (fun _ _ => rfl) [demoArticle] "Developers and Programmers" 5 0
